import Mathlib

/-!
Verification of the DAIOE weighting pipeline (scripts/02_weighting_AI.py).

The pandas program is shallowly embedded over lists of typed records.
Missing values (pandas NaN / pd.NA) are modelled as `none : Option ℚ` for
numeric cells and `none : Option String` for text cells; pandas "skipna"
sums and means, the masked weighted-average columns, the `replace(0, NA)`
guard, percentile ranking with the default average tie method, the
left-join with `validate="many_to_one"`, and the final multi-column sort
are each translated from the source.
-/

namespace Daioe

/-- A raw text cell that may be missing (pandas NaN). -/
abbrev Cell := Option String

/-- pandas `Series.astype(str)` renders a missing value as the string "nan". -/
def cellToStr : Cell → String
  | none => "nan"
  | some s => s

/-- `str.split(" ", n=1)` on a character list: the text before the first
space character and, when a space exists, the remainder after it. -/
def splitOnFirst : List Char → List Char × Option (List Char)
  | [] => ([], none)
  | c :: cs =>
    if c = ' ' then ([], some cs)
    else
      let p := splitOnFirst cs
      (c :: p.1, p.2)

/-- `split_code_label`: `series.astype(str).str.split(" ", n=1, expand=True)`
followed by `fillna({0: "", 1: ""})`; returns the (code, label) pair. -/
def split_code_label (c : Cell) : String × String :=
  let p := splitOnFirst (cellToStr c).data
  (String.mk p.1,
    match p.2 with
    | none => ""
    | some b => String.mk b)

/-- pandas `.str.zfill(w)`: left-pad with the character 0 up to width `w`
(pandas zfill has no special sign handling). -/
def zfill (w : Nat) (s : String) : String :=
  String.mk (List.replicate (w - s.data.length) '0' ++ s.data)

/-- pandas `.str.lstrip("0")`: drop every leading 0 character. -/
def lstrip0 (s : String) : String :=
  String.mk (s.data.dropWhile (fun ch => ch == '0'))

/-- The code normalisation of `prepare_raw_dataframe`: the code part of the
cell, zero-filled to width 4 at level 4 and stripped of leading zeros at
levels 1 to 3. -/
def normCode (level : Nat) (c : Cell) : String :=
  if level = 4 then zfill 4 (split_code_label c).1 else lstrip0 (split_code_label c).1

/-- One row of the raw DAIOE metric file: the year, the four composite
"code label" cells, and the values of the daioe metric columns in order. -/
structure RawRow where
  year : Int
  cell4 : Cell
  cell3 : Cell
  cell2 : Cell
  cell1 : Cell
  metrics : List (Option ℚ)
deriving DecidableEq

/-- Cell of the code column of the given level (columns `{taxonomy}_1` .. `{taxonomy}_4`). -/
def RawRow.cell (r : RawRow) : Nat → Cell
  | 1 => r.cell1
  | 2 => r.cell2
  | 3 => r.cell3
  | _ => r.cell4

/-- The raw DAIOE frame: its column-name list (used by the schema checks of
`ensure_columns`) together with its typed rows. -/
structure RawFrame where
  cols : List String
  rows : List RawRow
deriving DecidableEq

/-- The exceptions raised by the pipeline: `KeyError` from `ensure_columns`
and the daioe-column check, `ValueError` from `attach_employment` and the
level check, `MergeError` from `validate="many_to_one"`. -/
inductive PipeErr
  | keyErr (msg : String)
  | valueErr (msg : String)
  | mergeErr (msg : String)
deriving DecidableEq

/-- Decidable equality of run results, used to evaluate concrete runs. -/
instance {ε α : Type} [DecidableEq ε] [DecidableEq α] : DecidableEq (Except ε α)
  | .error e, .error f =>
    if h : e = f then .isTrue (congrArg Except.error h)
    else .isFalse (fun hh => h (Except.error.inj hh))
  | .error _, .ok _ => .isFalse (fun hh => Except.noConfusion hh)
  | .ok _, .error _ => .isFalse (fun hh => Except.noConfusion hh)
  | .ok a, .ok b =>
    if h : a = b then .isTrue (congrArg Except.ok h)
    else .isFalse (fun hh => h (Except.ok.inj hh))

/-- A prepared leaf record: the four derived (code, label) pairs, the
employment count (absent until `attach_employment` fills it by the merge),
and the metric values. -/
structure LeafRow where
  year : Int
  code4 : String
  label4 : String
  code3 : String
  label3 : String
  code2 : String
  label2 : String
  code1 : String
  label1 : String
  emp : Option ℚ
  metrics : List (Option ℚ)
deriving DecidableEq

/-- Column `code{l}` of a leaf record. -/
def LeafRow.code (r : LeafRow) : Nat → String
  | 1 => r.code1
  | 2 => r.code2
  | 3 => r.code3
  | _ => r.code4

/-- Column `label{l}` of a leaf record. -/
def LeafRow.label (r : LeafRow) : Nat → String
  | 1 => r.label1
  | 2 => r.label2
  | 3 => r.label3
  | _ => r.label4

/-- Value of the i-th daioe metric column of a leaf record. -/
def LeafRow.metric (r : LeafRow) (i : Nat) : Option ℚ :=
  r.metrics.getD i none

/-- The per-row work of `prepare_raw_dataframe`: split every code column
into code and label, then zfill the level-4 code and lstrip levels 1-3. -/
def mkLeafRow (r : RawRow) : LeafRow :=
  { year := r.year
    code4 := normCode 4 r.cell4
    label4 := (split_code_label r.cell4).2
    code3 := normCode 3 r.cell3
    label3 := (split_code_label r.cell3).2
    code2 := normCode 2 r.cell2
    label2 := (split_code_label r.cell2).2
    code1 := normCode 1 r.cell1
    label1 := (split_code_label r.cell1).2
    emp := none
    metrics := r.metrics }

/-- Python `col.startswith("daioe_")`, computed on the character lists. -/
def strStartsWith (s pre : String) : Bool :=
  pre.data.isPrefixOf s.data

/-- The daioe metric columns: every column whose name starts with "daioe_". -/
def daioeColsOf (cols : List String) : List String :=
  cols.filter (fun c => strStartsWith c "daioe_")

/-- The four code columns `{taxonomy}_4` .. `{taxonomy}_1` that `prepare_raw_dataframe` requires. -/
def codeColNames (tax : String) : List String :=
  [tax ++ "_4", tax ++ "_3", tax ++ "_2", tax ++ "_1"]

/-- `prepare_raw_dataframe`: check the `year` column, require at least one
`daioe_*` column, check the four code columns, then derive the per-level
codes and labels row by row. -/
def prepare_raw_dataframe (raw : RawFrame) (tax : String) :
    Except PipeErr (List LeafRow × List String) :=
  if "year" ∈ raw.cols then
    let daioeCols := daioeColsOf raw.cols
    if daioeCols = [] then
      .error (.keyErr "Expected at least one daioe column in DAIOE raw file.")
    else if (codeColNames tax).all (fun c => raw.cols.contains c) then
      .ok (raw.rows.map mkLeafRow, daioeCols)
    else
      .error (.keyErr "Missing expected columns: code columns")
  else
    .error (.keyErr "Missing expected columns: year")

/-- One row of the SCB employment table after the `year` column is dropped:
the hierarchy level, the occupation code, and the employment count. -/
structure ScbRow where
  level : Int
  code : String
  value : Option ℚ
deriving DecidableEq

/-- The level-4 slice of the SCB table with its codes zero-filled to four
characters (`scb_lvl4["code"].astype(str).str.zfill(4)`). -/
def scbLevel4 (scb : List ScbRow) : List ScbRow :=
  (scb.filter (fun s => s.level == 4)).map (fun s => { s with code := zfill 4 s.code })

/-- The left-join of `merge(..., on="code4", how="left")` on one leaf row:
the employment value of the matching level-4 row, absent when unmatched. -/
def joinEmp (scb4 : List ScbRow) (r : LeafRow) : LeafRow :=
  { r with emp := ((scb4.find? (fun s => s.code == r.code4)).bind (fun s => s.value)) }

/-- `attach_employment`: fail when the level-4 slice is empty, fail when the
merge key is not unique on the right (`validate="many_to_one"`), otherwise
left-join the employment count onto each leaf by its `code4`. -/
def attach_employment (df : List LeafRow) (scb : List ScbRow) :
    Except PipeErr (List LeafRow) :=
  if scbLevel4 scb = [] then
    .error (.valueErr "SCB data must contain level-4 rows for weighting.")
  else if (((scbLevel4 scb).map (fun s => s.code)).Nodup : Prop) then
    .ok (df.map (joinEmp (scbLevel4 scb)))
  else
    .error (.mergeErr "Merge keys are not unique in right dataset; not a many-to-one merge")

/-- The `(year, code{l})` group of `compute_children_maps`. -/
def childGroup (df : List LeafRow) (l : Nat) (y : Int) (c : String) : List LeafRow :=
  df.filter (fun r => r.year == y && r.code l == c)

/-- `compute_children_maps` followed by the left merge on `(year, code)`:
the number of distinct next-finer codes under `(y, c)` at levels 1-3, the
constant 1 at level 4, and `none` when the key is absent from the map. -/
def nChildrenLookup (df : List LeafRow) (l : Nat) (y : Int) (c : String) : Option Nat :=
  if childGroup df l y c = [] then none
  else if l = 4 then some 1
  else some (((childGroup df l y c).map (fun r => r.code (l + 1))).dedup.length)

/-- The two aggregation methods of the pipeline. -/
inductive Method
  | weighted
  | simple
deriving DecidableEq

/-- One row of the assembled output table. -/
structure OutRow where
  taxonomy : String
  level : Nat
  code : String
  label : String
  year : Int
  nChildren : Option Nat
  metrics : List (Option ℚ)
  pct : List (Option ℚ)
deriving DecidableEq

/-- Value of the i-th metric column of an output row. -/
def OutRow.metric (r : OutRow) (i : Nat) : Option ℚ :=
  r.metrics.getD i none

/-- pandas `Series.where(mask, 0)` on one cell. -/
def whereMask (mask : Bool) (x : Option ℚ) : Option ℚ :=
  if mask then x else some 0

/-- NaN-propagating product of two cells. -/
def naMul : Option ℚ → Option ℚ → Option ℚ
  | some a, some b => some (a * b)
  | _, _ => none

/-- pandas groupby sum with `skipna=True`: missing cells count as zero. -/
def skipnaSum (xs : List (Option ℚ)) : ℚ :=
  (xs.map (fun x => x.getD 0)).sum

/-- The cell `{metric}_wx = metric.where(mask, 0) * emp.where(mask, 0)`
with `mask = metric.notna()`. -/
def wxCell (r : LeafRow) (i : Nat) : Option ℚ :=
  naMul (whereMask (r.metric i).isSome (r.metric i)) (whereMask (r.metric i).isSome r.emp)

/-- The cell `{metric}_w = emp.where(mask, 0)` with `mask = metric.notna()`. -/
def wCell (r : LeafRow) (i : Nat) : Option ℚ :=
  whereMask (r.metric i).isSome r.emp

/-- The weighted aggregate of one group for one metric: the summed `_wx`
column divided by the summed `_w` column after `replace(0, pd.NA)`. -/
def weightedValue (g : List LeafRow) (i : Nat) : Option ℚ :=
  let den := skipnaSum (g.map (fun r => wCell r i))
  if den = 0 then none else some (skipnaSum (g.map (fun r => wxCell r i)) / den)

/-- pandas groupby mean with `skipna=True`: the mean of the present values,
missing when no value is present. -/
def skipnaMean (xs : List (Option ℚ)) : Option ℚ :=
  let vs := xs.filterMap id
  if vs = [] then none else some (vs.sum / (vs.length : ℚ))

/-- The simple aggregate of one group for one metric. -/
def simpleValue (g : List LeafRow) (i : Nat) : Option ℚ :=
  skipnaMean (g.map (fun r => r.metric i))

/-- Aggregate value of one group for one metric under the given method. -/
def aggValue : Method → List LeafRow → Nat → Option ℚ
  | .weighted, g, i => weightedValue g i
  | .simple, g, i => simpleValue g i

/-- The distinct `(year, code{l}, label{l})` group keys of
`groupby(["year", code_col, label_col])`. -/
def groupKeys (df : List LeafRow) (l : Nat) : List (Int × String × String) :=
  (df.map (fun r => (r.year, r.code l, r.label l))).dedup

/-- The leaf rows of one `(year, code{l}, label{l})` group. -/
def leavesOf (df : List LeafRow) (l : Nat) (k : Int × String × String) : List LeafRow :=
  df.filter (fun r => r.year == k.1 && r.code l == k.2.1 && r.label l == k.2.2)

/-- `aggregate_level`: one output row per `(year, code, label)` group at the
given level, carrying the aggregated metrics, the merged children count,
the taxonomy and the level (the pct columns are added later). -/
def aggregate_level (df : List LeafRow) (daioeN : Nat) (tax : String) (l : Nat)
    (method : Method) : List OutRow :=
  (groupKeys df l).map (fun k =>
    { taxonomy := tax
      level := l
      code := k.2.1
      label := k.2.2
      year := k.1
      nChildren := nChildrenLookup df l k.1 k.2.1
      metrics := (List.range daioeN).map (fun i => aggValue method (leavesOf df l k) i)
      pct := [] })

/-- `base_level_four`: the leaf rows passed through unchanged as level 4. -/
def base_level_four (df : List LeafRow) (daioeN : Nat) (tax : String) : List OutRow :=
  df.map (fun r =>
    { taxonomy := tax
      level := 4
      code := r.code4
      label := r.label4
      year := r.year
      nChildren := nChildrenLookup df 4 r.year r.code4
      metrics := (List.range daioeN).map (fun i => r.metric i)
      pct := [] })

/-- The present values of metric `i` in one `(year, level)` group of the
combined table: the ranking population of `rank(pct=True)`. -/
def groupVals (table : List OutRow) (y : Int) (l : Nat) (i : Nat) : List ℚ :=
  (table.filter (fun r => r.year == y && r.level == l)).filterMap (fun r => r.metric i)

/-- pandas `rank(pct=True)` of value `v` inside population `vs`: the average
ordinal rank of the ties divided by the population size. -/
def pctRank (vs : List ℚ) (v : ℚ) : ℚ :=
  (((vs.countP (fun w => decide (w < v)) : Nat) : ℚ) +
      ((vs.countP (fun w => decide (w ≤ v)) : Nat) : ℚ) + 1) / 2 / (vs.length : ℚ)

/-- `add_percentiles`: one pct column per metric, ranked inside the row's
`(year, level)` group; rows with a missing metric get a missing rank. -/
def add_percentiles (table : List OutRow) (daioeN : Nat) : List OutRow :=
  table.map (fun r =>
    { r with pct := (List.range daioeN).map (fun i =>
        (r.metric i).map (fun v => pctRank (groupVals table r.year r.level i) v)) })

/-- The `sort_values(["level", "code", "year"])` key of an output row. -/
def sortTriple (r : OutRow) : Nat × String × Int :=
  (r.level, r.code, r.year)

/-- Lexicographic ascending comparison on the sort key. -/
def tripleLe (a b : Nat × String × Int) : Bool :=
  decide (a.1 < b.1) ||
    (a.1 == b.1 && (decide (a.2.1 < b.2.1) ||
      (a.2.1 == b.2.1 && decide (a.2.2 ≤ b.2.2))))

/-- Insertion into a sorted list under a boolean comparison. -/
def insertSorted (le : α → α → Bool) (a : α) : List α → List α
  | [] => [a]
  | b :: bs => if le a b then a :: b :: bs else b :: insertSorted le a bs

/-- Insertion sort under a boolean comparison (the model of `sort_values`). -/
def sortByBool (le : α → α → Bool) : List α → List α
  | [] => []
  | a :: as => insertSorted le a (sortByBool le as)

/-- The `pd.concat([lvl1, lvl2, lvl3, lvl4])` union of the four levels. -/
def combinedTable (df : List LeafRow) (daioeN : Nat) (tax : String) (method : Method) :
    List OutRow :=
  aggregate_level df daioeN tax 1 method ++ aggregate_level df daioeN tax 2 method ++
    aggregate_level df daioeN tax 3 method ++ base_level_four df daioeN tax

/-- `build_pipeline`: aggregate levels 1-3, pass level 4 through, union,
add the percentile columns, and sort by `(level, code, year)`. -/
def build_pipeline (df : List LeafRow) (daioeN : Nat) (tax : String) (method : Method) :
    List OutRow :=
  sortByBool (fun a b => tripleLe (sortTriple a) (sortTriple b))
    (add_percentiles (combinedTable df daioeN tax method) daioeN)

/-- `write_outputs`: the two file writes and the returned path pair. -/
def write_outputs (tax : String) (weightedTable simpleTable : List OutRow) :
    List (String × List OutRow) × (String × String) :=
  let wPath := "03_daioe_aggregated/daioe_" ++ tax ++ "_emp_weighted.csv"
  let sPath := "03_daioe_aggregated/daioe_" ++ tax ++ "_simple_avg.csv"
  ([(wPath, weightedTable), (sPath, simpleTable)], (wPath, sPath))

/-- `run_weighting`: prepare, attach employment, build both pipelines, then
write both tables; any raised error aborts before `write_outputs` runs, so
the emitted write list of a failed run is empty. -/
def run_weighting (raw : RawFrame) (scb : List ScbRow) (tax : String) :
    List (String × List OutRow) × Except PipeErr (String × String) :=
  match prepare_raw_dataframe raw tax with
  | .error e => ([], .error e)
  | .ok pd =>
    match attach_employment pd.1 scb with
    | .error e => ([], .error e)
    | .ok df =>
      let n := pd.2.length
      let w := build_pipeline df n tax .weighted
      let s := build_pipeline df n tax .simple
      let out := write_outputs tax w s
      (out.1, .ok out.2)

/-! Specification-side formulas. These transcribe the spec's own words
(section 4.4 and 4.5), to be compared with the implementation-side
definitions above. -/

/-- The weighted-average formula as the spec states it: the sum of
`value × employment` over leaves with a present value (absent employment
weighting as zero) divided by the matching employment sum, absent when
that denominator is zero. -/
def specWeighted (g : List LeafRow) (i : Nat) : Option ℚ :=
  if (g.map (fun r => if (r.metric i).isSome then (r.emp).getD 0 else 0)).sum = 0 then none
  else
    some ((g.map (fun r =>
        if (r.metric i).isSome then ((r.metric i).getD 0) * ((r.emp).getD 0) else 0)).sum /
      (g.map (fun r => if (r.metric i).isSome then (r.emp).getD 0 else 0)).sum)

/-- Contribution of one population value `w` to the average-rank score of
`v`: a full point when strictly below, half a point on a tie. -/
def tieScore (v w : ℚ) : ℚ :=
  if w < v then 1 else if w = v then 1/2 else 0

/-- The percentile rank under the average-rank tie convention, stated as a
score sum: `(Σ tieScore + 1/2) / n`. -/
def specPctRank (vs : List ℚ) (v : ℚ) : ℚ :=
  ((vs.map (tieScore v)).sum + 1/2) / (vs.length : ℚ)

/-- The key columns shared by the two output tables (everything except the
metric and percentile columns). -/
def keyProj (r : OutRow) : String × Nat × String × String × Int × Option Nat :=
  (r.taxonomy, r.level, r.code, r.label, r.year, r.nChildren)

/-- The sort comparison of `build_pipeline`, read off the key columns. -/
def leKey6 (u v : String × Nat × String × String × Int × Option Nat) : Bool :=
  tripleLe (u.2.1, u.2.2.1, u.2.2.2.2.1) (v.2.1, v.2.2.1, v.2.2.2.2.1)

/-- Replace the employment column of a leaf row (used to state that the
simple method never reads employment). -/
def setEmp (g : LeafRow → Option ℚ) (r : LeafRow) : LeafRow :=
  { r with emp := g r }

/-! Concrete example data used by the per-claim counterexamples and
witnesses. -/

/-- The spec's concrete weighted scenario: two leaves with employments 10
and 30 and metric values 0.8 and 0.4 under parent code 111. -/
def exC1 : List LeafRow := [
  { year := 2020, code4 := "1111", label4 := "a", code3 := "111", label3 := "L",
    code2 := "11", label2 := "m", code1 := "1", label1 := "n", emp := some 10,
    metrics := [some (4/5)] },
  { year := 2020, code4 := "1112", label4 := "b", code3 := "111", label3 := "L",
    code2 := "11", label2 := "m", code1 := "1", label1 := "n", emp := some 30,
    metrics := [some (2/5)] }]

/-- The level-3 output row the pipeline produces for `exC1`. -/
def exC1Row : OutRow :=
  { taxonomy := "ssyk2012", level := 3, code := "111", label := "L", year := 2020,
    nChildren := some 2, metrics := [some (1/2)], pct := [] }

/-- A combined table holding one (year, level) group with metric values
0.1, 0.5, 0.5: the spec's concrete ranking scenario. -/
def exC2 : List OutRow := [
  { taxonomy := "t", level := 4, code := "0001", label := "x", year := 2020,
    nChildren := some 1, metrics := [some (1/10)], pct := [] },
  { taxonomy := "t", level := 4, code := "0002", label := "y", year := 2020,
    nChildren := some 1, metrics := [some (1/2)], pct := [] },
  { taxonomy := "t", level := 4, code := "0003", label := "z", year := 2020,
    nChildren := some 1, metrics := [some (1/2)], pct := [] }]

/-- The second row of `exC2` after `add_percentiles` (one of the ties). -/
def exC2Row : OutRow :=
  { taxonomy := "t", level := 4, code := "0002", label := "y", year := 2020,
    nChildren := some 1, metrics := [some (1/2)], pct := [some (5/6)] }

/-- `exC1` with the employment counts removed and changed, for the C7
witness. -/
def exC7b : List LeafRow := [
  { year := 2020, code4 := "1111", label4 := "a", code3 := "111", label3 := "L",
    code2 := "11", label2 := "m", code1 := "1", label1 := "n", emp := none,
    metrics := [some (4/5)] },
  { year := 2020, code4 := "1112", label4 := "b", code3 := "111", label3 := "L",
    code2 := "11", label2 := "m", code1 := "1", label1 := "n", emp := some 7,
    metrics := [some (2/5)] }]

/-- A two-leaf table for the employment join example. -/
def exC3df : List LeafRow := [
  { year := 2020, code4 := "1111", label4 := "a", code3 := "111", label3 := "L",
    code2 := "11", label2 := "m", code1 := "1", label1 := "n", emp := none,
    metrics := [some 1] },
  { year := 2020, code4 := "2222", label4 := "b", code3 := "222", label3 := "M",
    code2 := "22", label2 := "p", code1 := "2", label1 := "q", emp := none,
    metrics := [some 2] }]

/-- An employment table with one matching level-4 row (code unpadded) and
one row of another level. -/
def exC3scb : List ScbRow := [
  { level := 4, code := "1111", value := some 5 },
  { level := 3, code := "111", value := some 99 }]

/-- The result of attaching `exC3scb` onto `exC3df`: the first leaf gains
employment 5, the second finds no match and stays absent. -/
def exC3out : List LeafRow := [
  { year := 2020, code4 := "1111", label4 := "a", code3 := "111", label3 := "L",
    code2 := "11", label2 := "m", code1 := "1", label1 := "n", emp := some 5,
    metrics := [some 1] },
  { year := 2020, code4 := "2222", label4 := "b", code3 := "222", label3 := "M",
    code2 := "22", label2 := "p", code1 := "2", label1 := "q", emp := none,
    metrics := [some 2] }]

/-- A raw frame whose level-4 code token has five digits. -/
def exC4raw : RawFrame :=
  { cols := ["year", "t_4", "t_3", "t_2", "t_1", "daioe_a"],
    rows := [{ year := 2020, cell4 := some "12345 foo", cell3 := some "123 f",
               cell2 := some "12 f", cell1 := some "1 f", metrics := [some 1] }] }

/-- Two leaves sharing year and level-3 code but carrying distinct level-3
labels. -/
def exC6 : List LeafRow := [
  { year := 2020, code4 := "1111", label4 := "a", code3 := "111", label3 := "A",
    code2 := "11", label2 := "m", code1 := "1", label1 := "n", emp := some 1,
    metrics := [some 1] },
  { year := 2020, code4 := "1112", label4 := "b", code3 := "111", label3 := "B",
    code2 := "11", label2 := "m", code1 := "1", label1 := "n", emp := some 2,
    metrics := [some 2] }]

/-- A single-leaf table whose leaf has a present metric but absent
employment. -/
def exC8 : List LeafRow := [
  { year := 2020, code4 := "1111", label4 := "a", code3 := "111", label3 := "L",
    code2 := "11", label2 := "m", code1 := "1", label1 := "n", emp := none,
    metrics := [some (1/2)] }]

/-- A leaf table containing the same leaf row twice, so that its
`(year, code4, label4)` key repeats. -/
def exC6dup : List LeafRow := [
  { year := 2020, code4 := "1111", label4 := "a", code3 := "111", label3 := "A",
    code2 := "11", label2 := "m", code1 := "1", label1 := "n", emp := some 1,
    metrics := [some 1] },
  { year := 2020, code4 := "1111", label4 := "a", code3 := "111", label3 := "A",
    code2 := "11", label2 := "m", code1 := "1", label1 := "n", emp := some 1,
    metrics := [some 1] }]

/-- A single leaf with a present metric and a present nonzero employment. -/
def exC8leaf : LeafRow :=
  { year := 2020, code4 := "1111", label4 := "a", code3 := "111", label3 := "L",
    code2 := "11", label2 := "m", code1 := "1", label1 := "n", emp := some 2,
    metrics := [some (3/4)] }

/-- A single-leaf table whose leaf has a present metric and a present
nonzero employment. -/
def exC8good : List LeafRow := [exC8leaf]

/-- The level-3 weighted output row for `exC8good`. -/
def exC8RowW : OutRow :=
  { taxonomy := "t", level := 3, code := "111", label := "L", year := 2020,
    nChildren := some 1, metrics := [some (3/4)], pct := [] }

/-- The level-3 simple output row for `exC8good` (identical here). -/
def exC8RowS : OutRow :=
  { taxonomy := "t", level := 3, code := "111", label := "L", year := 2020,
    nChildren := some 1, metrics := [some (3/4)], pct := [] }

/-- A well-formed raw frame for the run-level witnesses. -/
def exC9raw : RawFrame :=
  { cols := ["year", "t_4", "t_3", "t_2", "t_1", "daioe_a"],
    rows := [{ year := 2020, cell4 := some "1111 aa", cell3 := some "111 bb",
               cell2 := some "11 cc", cell1 := some "1 dd", metrics := [some 1] }] }

/-! Helper lemmas. -/

attribute [local semireducible] Rat.add Rat.mul Rat.inv Rat.sub

theorem getD_map_range {α : Type} (f : Nat → α) (d : α) {n i : Nat} (hi : i < n) :
    ((List.range n).map f).getD i d = f i := by
  rw [List.getD_eq_getElem?_getD, List.getElem?_map, List.getElem?_range hi]
  rfl

theorem filter_map_comm {α β : Type} (p : β → Bool) (f : α → β) (l : List α) :
    (l.map f).filter p = (l.filter (fun a => p (f a))).map f := by
  induction l with
  | nil => rfl
  | cons a as ih =>
    simp only [List.map_cons, List.filter_cons]
    cases h : p (f a) <;> simp [h, ih]

theorem wxCell_getD (r : LeafRow) (i : Nat) :
    (wxCell r i).getD 0 =
      if (r.metric i).isSome then ((r.metric i).getD 0) * ((r.emp).getD 0) else 0 := by
  unfold wxCell whereMask naMul
  cases hm : r.metric i <;> cases he : r.emp <;> simp [hm, he]

theorem wCell_getD (r : LeafRow) (i : Nat) :
    (wCell r i).getD 0 = if (r.metric i).isSome then (r.emp).getD 0 else 0 := by
  unfold wCell whereMask
  cases hm : r.metric i <;> cases he : r.emp <;> simp [hm, he]

theorem weightedValue_eq_spec (g : List LeafRow) (i : Nat) :
    weightedValue g i = specWeighted g i := by
  unfold weightedValue specWeighted skipnaSum
  simp only [List.map_map, Function.comp_def]
  rw [List.map_congr_left (fun r _ => wxCell_getD r i),
    List.map_congr_left (fun r _ => wCell_getD r i)]

theorem aggregate_metric_eq (df : List LeafRow) (daioeN : Nat) (tax : String) (l : Nat)
    (method : Method) (row : OutRow) (hrow : row ∈ aggregate_level df daioeN tax l method)
    (i : Nat) (hi : i < daioeN) :
    row.metric i = aggValue method (leavesOf df l (row.year, row.code, row.label)) i := by
  rcases List.mem_map.1 hrow with ⟨k, hk, hkeq⟩
  subst hkeq
  obtain ⟨y, c, lab⟩ := k
  show ((List.range daioeN).map (fun j =>
      aggValue method (leavesOf df l (y, c, lab)) j)).getD i none = _
  rw [getD_map_range _ _ hi]

/-- C1, amended: every row that `aggregate_level` produces with the
weighted method carries, for every metric, exactly the spec's masked
weighted-average value over the leaves of the row's group (with the
group's weighted aggregate being 0.5, not 0.35, in the spec's concrete
scenario, as the counterexample shows). -/
theorem C1_weighted_aggregate (df : List LeafRow) (daioeN : Nat) (tax : String) (l : Nat)
    (row : OutRow) (hrow : row ∈ aggregate_level df daioeN tax l .weighted)
    (i : Nat) (hi : i < daioeN) :
    row.metric i = specWeighted (leavesOf df l (row.year, row.code, row.label)) i := by
  rw [aggregate_metric_eq df daioeN tax l .weighted row hrow i hi]
  exact weightedValue_eq_spec _ i

/-- C1 counterexample: on the spec's own concrete scenario (employments 10
and 30, values 0.8 and 0.4) the weighted aggregate is 0.5, not the 0.35
the claim asserts. -/
theorem C1_counterexample :
    (aggregate_level exC1 1 "ssyk2012" 3 .weighted).map (fun r => r.metric 0) =
      [some (1/2)] ∧ (1/2 : ℚ) ≠ 7/20 := by
  constructor
  · decide
  · decide

/-- C1 witness: the amended theorem applied to the concrete scenario. -/
theorem C1_witness :
    exC1Row ∈ aggregate_level exC1 1 "ssyk2012" 3 .weighted ∧ 0 < 1 ∧
      exC1Row.metric 0 = specWeighted (leavesOf exC1 3 (exC1Row.year, exC1Row.code, exC1Row.label)) 0 :=
  ⟨by decide, by decide,
    C1_weighted_aggregate exC1 1 "ssyk2012" 3 exC1Row (by decide) 0 (by decide)⟩

theorem countP_le_split (vs : List ℚ) (v : ℚ) :
    vs.countP (fun w => decide (w ≤ v)) =
      vs.countP (fun w => decide (w < v)) + vs.countP (fun w => decide (w = v)) := by
  induction vs with
  | nil => rfl
  | cons a as ih =>
    simp only [List.countP_cons, ih]
    rcases lt_trichotomy a v with h | h | h
    · simp [h, le_of_lt h, ne_of_lt h]
      omega
    · simp [h]
      omega
    · simp [not_le.2 h, ne_of_gt h, not_lt.2 (le_of_lt h)]

theorem sum_tieScore (vs : List ℚ) (v : ℚ) :
    (vs.map (tieScore v)).sum =
      ((vs.countP (fun w => decide (w < v)) : Nat) : ℚ) +
        ((vs.countP (fun w => decide (w = v)) : Nat) : ℚ) / 2 := by
  induction vs with
  | nil => simp
  | cons a as ih =>
    simp only [List.map_cons, List.sum_cons, List.countP_cons, ih, tieScore]
    rcases lt_trichotomy a v with h | h | h
    · simp only [if_pos h]
      simp [ne_of_lt h, h]
      ring
    · simp only [h]
      simp [lt_irrefl]
      ring
    · simp only [if_neg (not_lt.2 (le_of_lt h)), if_neg (ne_of_gt h)]
      simp [not_lt.2 (le_of_lt h), ne_of_gt h]

theorem pctRank_eq_spec (vs : List ℚ) (v : ℚ) : pctRank vs v = specPctRank vs v := by
  unfold pctRank specPctRank
  rw [sum_tieScore, countP_le_split]
  push_cast
  ring

/-- C2, amended: inside each (year, level) group each present metric value
receives the pandas average-rank percentile: rank = (number of strictly
smaller values + half the number of ties + one half) divided by the number
of present values; ties share the average rank, not the higher one, so the
group {0.1, 0.5, 0.5} is ranked {1/3, 5/6, 5/6}. Rows with an absent
metric receive an absent rank. -/
theorem C2_percentile_rank (table : List OutRow) (daioeN : Nat) (row : OutRow)
    (hrow : row ∈ add_percentiles table daioeN) (i : Nat) (hi : i < daioeN) :
    row.pct.getD i none =
      (row.metric i).map (fun v => specPctRank (groupVals table row.year row.level i) v) := by
  rcases List.mem_map.1 hrow with ⟨r0, hr0, hkeq⟩
  subst hkeq
  show ((List.range daioeN).map (fun j =>
      (r0.metric j).map (fun v => pctRank (groupVals table r0.year r0.level j) v))).getD i none = _
  rw [getD_map_range _ _ hi]
  exact congrArg (fun f => Option.map f (r0.metric i))
    (funext fun v => pctRank_eq_spec (groupVals table r0.year r0.level i) v)

/-- C2 counterexample: on the group {0.1, 0.5, 0.5} the code assigns the
tied values rank 5/6, while the claim's less-or-equal fraction convention
would give them rank 1. -/
theorem C2_counterexample :
    (add_percentiles exC2 1).map (fun r => r.pct) = [[some (1/3)], [some (5/6)], [some (5/6)]] ∧
    (((groupVals exC2 2020 4 0).countP (fun w => decide (w ≤ (1/2 : ℚ))) : Nat) : ℚ) /
        ((groupVals exC2 2020 4 0).length : ℚ) = 1 ∧
    (5/6 : ℚ) ≠ 1 := by
  refine ⟨by decide, by decide, by decide⟩

/-- C2 witness: the amended theorem applied to one of the tied rows of the
concrete scenario. -/
theorem C2_witness :
    exC2Row ∈ add_percentiles exC2 1 ∧ 0 < 1 ∧
      exC2Row.pct.getD 0 none =
        (exC2Row.metric 0).map (fun v =>
          specPctRank (groupVals exC2 exC2Row.year exC2Row.level 0) v) :=
  ⟨by decide, by decide, C2_percentile_rank exC2 1 exC2Row (by decide) 0 (by decide)⟩

theorem joinEmp_emp_of_no_match (scb4 : List ScbRow) (r : LeafRow)
    (h : ∀ s ∈ scb4, s.code ≠ r.code4) : (joinEmp scb4 r).emp = none := by
  have hfind : scb4.find? (fun s => s.code == r.code4) = none := by
    rw [List.find?_eq_none]
    intro s hs
    simpa using h s hs
  show (scb4.find? (fun s => s.code == r.code4)).bind (fun s => s.value) = none
  rw [hfind]
  rfl

theorem joinEmp_emp_of_match (scb4 : List ScbRow) (r : LeafRow)
    (hnd : (scb4.map (fun s => s.code)).Nodup) (s : ScbRow) (hs : s ∈ scb4)
    (hcode : s.code = r.code4) : (joinEmp scb4 r).emp = s.value := by
  show (scb4.find? (fun s => s.code == r.code4)).bind (fun s => s.value) = s.value
  rcases hfind : scb4.find? (fun s => s.code == r.code4) with _ | s'
  · rw [List.find?_eq_none] at hfind
    exact absurd (by simpa using hcode) (hfind s hs)
  · have hs'mem : s' ∈ scb4 := List.mem_of_find?_eq_some hfind
    have hs'code : s'.code = r.code4 := by
      simpa using List.find?_some hfind
    have hss' : s = s' := List.inj_on_of_nodup_map hnd hs hs'mem (by rw [hcode, hs'code])
    subst hss'
    rw [hfind]
    rfl

/-- C3, confirmed: `attach_employment` raises exactly when the level-4
slice of the employment table is empty or its (zero-filled) codes repeat;
on success it preserves every leaf record, left-joining the employment
value by exact match on the zero-filled 4-character code, and a leaf with
no match keeps an absent employment value. -/
theorem C3_attach_employment (df : List LeafRow) (scb : List ScbRow) :
    ((∃ e, attach_employment df scb = .error e) ↔
      scbLevel4 scb = [] ∨ ¬ ((scbLevel4 scb).map (fun s => s.code)).Nodup) ∧
    (∀ out, attach_employment df scb = .ok out →
      out.length = df.length ∧
      ∀ j (hj : j < df.length) (hj' : j < out.length),
        out.get ⟨j, hj'⟩ = { df.get ⟨j, hj⟩ with emp := (out.get ⟨j, hj'⟩).emp } ∧
        ((∀ s ∈ scbLevel4 scb, s.code ≠ (df.get ⟨j, hj⟩).code4) →
          (out.get ⟨j, hj'⟩).emp = none) ∧
        (∀ s ∈ scbLevel4 scb, s.code = (df.get ⟨j, hj⟩).code4 →
          (out.get ⟨j, hj'⟩).emp = s.value)) := by
  unfold attach_employment
  split_ifs with h1 h2
  · refine ⟨⟨fun _ => Or.inl h1, fun _ => ⟨_, rfl⟩⟩, fun out hout => hout.elim⟩
  · constructor
    · constructor
      · rintro ⟨e, he⟩
        exact he.elim
      · rintro (h | h)
        · exact absurd h h1
        · exact absurd h2 h
    · intro out hout
      have hout' : out = df.map (joinEmp (scbLevel4 scb)) := (Except.ok.inj hout).symm
      subst hout'
      refine ⟨List.length_map _ _, fun j hj hj' => ?_⟩
      have hget : (df.map (joinEmp (scbLevel4 scb))).get ⟨j, hj'⟩ =
          joinEmp (scbLevel4 scb) (df.get ⟨j, hj⟩) := by
        simp [List.get_eq_getElem, List.getElem_map]
      rw [hget]
      exact ⟨rfl, fun hno => joinEmp_emp_of_no_match _ _ hno,
        fun s hs hcode => joinEmp_emp_of_match _ _ h2 s hs hcode⟩
  · refine ⟨⟨fun _ => Or.inr h2, fun _ => ⟨_, rfl⟩⟩, fun out hout => hout.elim⟩

/-- C3 witness: the join applied to a concrete table with one matched and
one unmatched leaf. -/
theorem C3_witness :
    attach_employment exC3df exC3scb = .ok exC3out ∧ exC3out.length = exC3df.length :=
  ⟨by decide, ((C3_attach_employment exC3df exC3scb).2 exC3out (by decide)).1⟩

/-- C6, amended: at levels 1-3 `aggregate_level` produces exactly one row
per distinct (year, code, label) triple of the leaves (the group key
includes the label, so one (year, code) pair yields several rows when
labels differ); the level-4 block of the assembled table is a row-by-row
passthrough of the leaf table, carrying one row per leaf row, so a
repeated leaf key repeats in the output and the assembled table is not
one row per (taxonomy, year, level, code). -/
theorem C6_one_row_per_group (df : List LeafRow) (daioeN : Nat) (tax : String) (l : Nat)
    (method : Method) :
    ((aggregate_level df daioeN tax l method).map (fun r => (r.year, r.code, r.label))).Nodup ∧
    (∀ y c lab,
      (y, c, lab) ∈ (aggregate_level df daioeN tax l method).map
          (fun r => (r.year, r.code, r.label)) ↔
        ∃ r ∈ df, r.year = y ∧ r.code l = c ∧ r.label l = lab) ∧
    (base_level_four df daioeN tax).map (fun r => (r.year, r.code, r.label)) =
      df.map (fun r => (r.year, r.code4, r.label4)) := by
  have hmap : (aggregate_level df daioeN tax l method).map (fun r => (r.year, r.code, r.label)) =
      groupKeys df l := by
    unfold aggregate_level
    rw [List.map_map]
    have hid : ∀ k ∈ groupKeys df l,
        ((fun r : OutRow => (r.year, r.code, r.label)) ∘ (fun k : Int × String × String =>
          ({ taxonomy := tax, level := l, code := k.2.1, label := k.2.2, year := k.1,
             nChildren := nChildrenLookup df l k.1 k.2.1,
             metrics := (List.range daioeN).map (fun i => aggValue method (leavesOf df l k) i),
             pct := [] } : OutRow))) k = k := by
      rintro ⟨y, c, lab⟩ _
      rfl
    rw [List.map_congr_left hid]
    exact List.map_id' _
  refine ⟨?_, ?_, ?_⟩
  · rw [hmap]
    exact List.nodup_dedup _
  · intro y c lab
    rw [hmap]
    unfold groupKeys
    rw [List.mem_dedup, List.mem_map]
    constructor
    · rintro ⟨r, hr, heq⟩
      injection heq with hy hrest
      injection hrest with hc hlab
      exact ⟨r, hr, hy, hc, hlab⟩
    · rintro ⟨r, hr, hy, hc, hlab⟩
      exact ⟨r, hr, by rw [hy, hc, hlab]⟩
  · unfold base_level_four
    rw [List.map_map]
    rfl

/-- C6 counterexample: two leaves sharing (year 2020, code 111) but with
distinct level-3 labels produce two aggregated rows for that (year, code)
pair, not one; and a leaf table repeating one leaf row produces two
identical level-4 rows in the assembled table's level-4 block, so even
per (year, level, code, label) the assembled table is not one row. -/
theorem C6_counterexample :
    (aggregate_level exC6 1 "t" 3 .weighted).map (fun r => (r.year, r.code)) =
      [(2020, "111"), (2020, "111")] ∧
    ¬ ((aggregate_level exC6 1 "t" 3 .weighted).map (fun r => (r.year, r.code))).Nodup ∧
    (base_level_four exC6dup 1 "t").map (fun r => (r.year, r.code, r.label)) =
      [(2020, "1111", "a"), (2020, "1111", "a")] ∧
    ¬ ((base_level_four exC6dup 1 "t").map (fun r => (r.year, r.code, r.label))).Nodup := by
  refine ⟨by decide, by decide, by decide, by decide⟩

/-- C6 witness: the amended theorem applied to the concrete two-label
table and to the duplicated-leaf table. -/
theorem C6_witness :
    ((aggregate_level exC6 1 "t" 3 .weighted).map (fun r => (r.year, r.code, r.label))).Nodup ∧
      ((2020, "111", "A") ∈ (aggregate_level exC6 1 "t" 3 .weighted).map
          (fun r => (r.year, r.code, r.label)) ↔
        ∃ r ∈ exC6, r.year = 2020 ∧ r.code 3 = "111" ∧ r.label 3 = "A") ∧
      (base_level_four exC6dup 1 "t").map (fun r => (r.year, r.code, r.label)) =
        exC6dup.map (fun r => (r.year, r.code4, r.label4)) :=
  ⟨(C6_one_row_per_group exC6 1 "t" 3 .weighted).1,
    (C6_one_row_per_group exC6 1 "t" 3 .weighted).2.1 2020 "111" "A",
    (C6_one_row_per_group exC6dup 1 "t" 3 .weighted).2.2⟩

theorem splitOnFirst_no_sep (l : List Char) (h : ' ' ∉ l) : splitOnFirst l = (l, none) := by
  induction l with
  | nil => rfl
  | cons c cs ih =>
    have hc : ¬ c = ' ' := fun hc => h (by rw [hc]; exact List.mem_cons_self _ _)
    have hm : ' ' ∉ cs := fun hm => h (List.mem_cons_of_mem c hm)
    simp [splitOnFirst, hc, ih hm]

theorem splitOnFirst_sep (a b : List Char) (ha : ' ' ∉ a) :
    splitOnFirst (a ++ ' ' :: b) = (a, some b) := by
  induction a with
  | nil => simp [splitOnFirst]
  | cons c cs ih =>
    have hc : ¬ c = ' ' := fun hc => ha (by rw [hc]; exact List.mem_cons_self _ _)
    have hm : ' ' ∉ cs := fun hm => ha (List.mem_cons_of_mem c hm)
    simp [splitOnFirst, hc, ih hm]

theorem takeWhile_zeros_replicate (l : List Char) :
    l.takeWhile (fun ch => ch == '0') =
      List.replicate (l.takeWhile (fun ch => ch == '0')).length '0' := by
  induction l with
  | nil => rfl
  | cons c cs ih =>
    rw [List.takeWhile_cons]
    by_cases hc : c = '0'
    · subst hc
      rw [if_pos (by decide), List.length_cons, List.replicate_succ]
      exact congrArg (List.cons '0') ih
    · rw [if_neg (by simp [hc])]
      rfl

theorem dropWhile_zeros_head (l : List Char) (c : Char)
    (h : (l.dropWhile (fun ch => ch == '0')).head? = some c) : ¬ c = '0' := by
  induction l with
  | nil => simp at h
  | cons a as ih =>
    rw [List.dropWhile_cons] at h
    by_cases ha : a = '0'
    · subst ha
      rw [if_pos (by decide)] at h
      exact ih h
    · rw [if_neg (by simp [ha]), List.head?_cons] at h
      have hac : a = c := Option.some.inj h
      subst hac
      exact ha

theorem zfill_length (w : Nat) (s : String) :
    (zfill w s).data.length = max w s.data.length := by
  show (List.replicate (w - s.data.length) '0' ++ s.data).length = max w s.data.length
  rw [List.length_append, List.length_replicate]
  omega

theorem lstrip0_spec (s : String) :
    ∃ k, s.data = List.replicate k '0' ++ (lstrip0 s).data ∧
      ∀ c, (lstrip0 s).data.head? = some c → ¬ c = '0' := by
  refine ⟨(s.data.takeWhile (fun ch => ch == '0')).length, ?_,
    fun c hc => dropWhile_zeros_head _ _ hc⟩
  show s.data = _ ++ s.data.dropWhile (fun ch => ch == '0')
  rw [← takeWhile_zeros_replicate]
  exact (List.takeWhile_append_dropWhile (fun ch => ch == '0') s.data).symm

/-- C4, amended: the normalizer splits the cell on the first space
character (not general whitespace); the leading token is zero-padded
regardless of whether it is numeric: at level 4 it is zero-filled to at
least four characters (exactly four only when the token has at most four),
while at levels 1 to 3 all leading zeros are stripped and no padding
remains; the label is everything after the first space, empty when the
cell has none. -/
theorem C4_code_normalizer (s : String) :
    (normCode 4 (some s) = zfill 4 (split_code_label (some s)).1 ∧
      (normCode 4 (some s)).data.length = max 4 (split_code_label (some s)).1.data.length) ∧
    (∀ l, l = 1 ∨ l = 2 ∨ l = 3 →
      normCode l (some s) = lstrip0 (split_code_label (some s)).1 ∧
      ∃ k, (split_code_label (some s)).1.data =
          List.replicate k '0' ++ (normCode l (some s)).data ∧
        ∀ c, (normCode l (some s)).data.head? = some c → ¬ c = '0') ∧
    ((' ' ∉ s.data) → split_code_label (some s) = (s, "")) ∧
    (∀ a b : List Char, s.data = a ++ ' ' :: b → ' ' ∉ a →
      split_code_label (some s) = (String.mk a, String.mk b)) := by
  refine ⟨⟨rfl, zfill_length 4 _⟩, ?_, ?_, ?_⟩
  · intro l hl
    have hnorm : normCode l (some s) = lstrip0 (split_code_label (some s)).1 := by
      rcases hl with rfl | rfl | rfl <;> rfl
    refine ⟨hnorm, ?_⟩
    rw [hnorm]
    exact lstrip0_spec _
  · intro h
    simp only [split_code_label, cellToStr]
    rw [splitOnFirst_no_sep s.data h]
  · intro a b hab ha
    simp only [split_code_label, cellToStr]
    rw [hab, splitOnFirst_sep a b ha]

/-- C4 counterexample: a level-4 cell whose leading token has five digits
is normalized to the five-character code 12345, so the level-4 code is not
always exactly four characters. -/
theorem C4_counterexample :
    (prepare_raw_dataframe exC4raw "t").map (fun p => p.1.map (fun r => r.code4)) =
      .ok ["12345"] ∧ ("12345" : String).data.length ≠ 4 := by
  refine ⟨by decide, by decide⟩

/-- C4 witness: the amended theorem applied to a concrete cell with a
zero-padded token and a label. -/
theorem C4_witness :
    ("012 Police" : String).data = ("012" : String).data ++ ' ' :: ("Police" : String).data ∧
      (' ' ∉ ("012" : String).data) ∧
      split_code_label (some "012 Police") = ("012", "Police") :=
  ⟨by decide, by decide,
    (C4_code_normalizer "012 Police").2.2.2 ("012" : String).data ("Police" : String).data
      (by decide) (by decide)⟩

theorem setEmp_code (g : LeafRow → Option ℚ) (r : LeafRow) (l : Nat) :
    (setEmp g r).code l = r.code l := by
  rcases l with _ | _ | _ | _ | n <;> rfl

theorem setEmp_label (g : LeafRow → Option ℚ) (r : LeafRow) (l : Nat) :
    (setEmp g r).label l = r.label l := by
  rcases l with _ | _ | _ | _ | n <;> rfl

theorem groupKeys_setEmp (df : List LeafRow) (g : LeafRow → Option ℚ) (l : Nat) :
    groupKeys (df.map (setEmp g)) l = groupKeys df l := by
  unfold groupKeys
  rw [List.map_map]
  congr 1

theorem leavesOf_setEmp (df : List LeafRow) (g : LeafRow → Option ℚ) (l : Nat)
    (k : Int × String × String) :
    leavesOf (df.map (setEmp g)) l k = (leavesOf df l k).map (setEmp g) := by
  unfold leavesOf
  rw [filter_map_comm]
  congr 1

theorem childGroup_setEmp (df : List LeafRow) (g : LeafRow → Option ℚ) (l : Nat)
    (y : Int) (c : String) :
    childGroup (df.map (setEmp g)) l y c = (childGroup df l y c).map (setEmp g) := by
  unfold childGroup
  rw [filter_map_comm]
  congr 1

theorem nChildrenLookup_setEmp (df : List LeafRow) (g : LeafRow → Option ℚ) (l : Nat)
    (y : Int) (c : String) :
    nChildrenLookup (df.map (setEmp g)) l y c = nChildrenLookup df l y c := by
  unfold nChildrenLookup
  rw [childGroup_setEmp]
  by_cases h0 : childGroup df l y c = []
  · rw [h0]
    rfl
  · have h0' : ¬ (childGroup df l y c).map (setEmp g) = [] := by
      simpa using h0
    rw [if_neg h0', if_neg h0]
    by_cases h4 : l = 4
    · rw [if_pos h4, if_pos h4]
    · rw [if_neg h4, if_neg h4]
      have hcodes : ((childGroup df l y c).map (setEmp g)).map (fun r => r.code (l + 1)) =
          (childGroup df l y c).map (fun r => r.code (l + 1)) := by
        rw [List.map_map]
        apply List.map_congr_left
        intro r _
        exact setEmp_code g r (l + 1)
      rw [hcodes]

theorem simpleValue_setEmp (g0 : List LeafRow) (g : LeafRow → Option ℚ) (i : Nat) :
    simpleValue (g0.map (setEmp g)) i = simpleValue g0 i := by
  unfold simpleValue
  rw [List.map_map]
  rfl

theorem aggregate_level_setEmp (df : List LeafRow) (g : LeafRow → Option ℚ) (daioeN : Nat)
    (tax : String) (l : Nat) :
    aggregate_level (df.map (setEmp g)) daioeN tax l .simple =
      aggregate_level df daioeN tax l .simple := by
  unfold aggregate_level
  rw [groupKeys_setEmp]
  apply List.map_congr_left
  intro k hk
  rw [leavesOf_setEmp, nChildrenLookup_setEmp]
  have hmet : (List.range daioeN).map
      (fun i => aggValue .simple ((leavesOf df l k).map (setEmp g)) i) =
      (List.range daioeN).map (fun i => aggValue .simple (leavesOf df l k) i) := by
    apply List.map_congr_left
    intro i _
    exact simpleValue_setEmp (leavesOf df l k) g i
  rw [hmet]

theorem base_level_four_setEmp (df : List LeafRow) (g : LeafRow → Option ℚ) (daioeN : Nat)
    (tax : String) :
    base_level_four (df.map (setEmp g)) daioeN tax = base_level_four df daioeN tax := by
  unfold base_level_four
  rw [List.map_map]
  apply List.map_congr_left
  intro r _
  show (_ : OutRow) = _
  rw [Function.comp_apply, nChildrenLookup_setEmp]
  rfl

/-- C7, confirmed: the simple-average pipeline never reads the employment
column: any two leaf tables that agree once their employment columns are
erased produce identical simple-average output tables. -/
theorem C7_simple_ignores_employment (df1 df2 : List LeafRow) (daioeN : Nat) (tax : String)
    (h : df1.map (setEmp (fun _ => none)) = df2.map (setEmp (fun _ => none))) :
    build_pipeline df1 daioeN tax .simple = build_pipeline df2 daioeN tax .simple := by
  have herase : ∀ df : List LeafRow,
      build_pipeline (df.map (setEmp (fun _ => none))) daioeN tax .simple =
        build_pipeline df daioeN tax .simple := by
    intro df
    unfold build_pipeline combinedTable
    rw [aggregate_level_setEmp, aggregate_level_setEmp, aggregate_level_setEmp,
      base_level_four_setEmp]
  rw [← herase df1, h, herase df2]

/-- C7 witness: changing and removing the employment counts of the
concrete two-leaf table leaves the simple-average output unchanged. -/
theorem C7_witness :
    exC1.map (setEmp (fun _ => none)) = exC7b.map (setEmp (fun _ => none)) ∧
      build_pipeline exC1 1 "t" .simple = build_pipeline exC7b 1 "t" .simple :=
  ⟨by decide, C7_simple_ignores_employment exC1 exC7b 1 "t" (by decide)⟩

theorem simpleValue_singleton (r : LeafRow) (i : Nat) : simpleValue [r] i = r.metric i := by
  unfold simpleValue skipnaMean
  rcases hm : r.metric i with _ | v
  · simp [hm]
  · simp [hm]

theorem weightedValue_singleton_good (r : LeafRow) (i : Nat) (e : ℚ) (he : r.emp = some e)
    (hne : e ≠ 0) : weightedValue [r] i = r.metric i := by
  unfold weightedValue skipnaSum wxCell wCell whereMask naMul
  rcases hm : r.metric i with _ | v
  · simp [hm, he]
  · simp [hm, he, hne, mul_div_cancel_right₀]

theorem weightedValue_singleton_bad (r : LeafRow) (i : Nat)
    (he : r.emp = none ∨ r.emp = some 0) : weightedValue [r] i = none := by
  unfold weightedValue skipnaSum wxCell wCell whereMask naMul
  rcases hm : r.metric i with _ | v <;> rcases he with he | he <;> simp [hm, he]

/-- C8, amended: for a group holding exactly one leaf, the simple
aggregate always equals that leaf's metric value; the weighted aggregate
equals it when the leaf's employment is present and nonzero (or the
metric itself is absent), but is absent when a present metric meets an
absent or zero employment, as the counterexample shows. -/
theorem C8_single_leaf (df : List LeafRow) (daioeN : Nat) (tax : String) (l : Nat)
    (k : Int × String × String) (r : LeafRow) (hk : leavesOf df l k = [r])
    (rowW rowS : OutRow)
    (hW : rowW ∈ aggregate_level df daioeN tax l .weighted)
    (hS : rowS ∈ aggregate_level df daioeN tax l .simple)
    (hkW : (rowW.year, rowW.code, rowW.label) = k)
    (hkS : (rowS.year, rowS.code, rowS.label) = k)
    (i : Nat) (hi : i < daioeN) :
    rowS.metric i = r.metric i ∧
    ((∃ e : ℚ, r.emp = some e ∧ e ≠ 0) → rowW.metric i = r.metric i) ∧
    ((r.emp = none ∨ r.emp = some 0) → rowW.metric i = none) := by
  have hWm := aggregate_metric_eq df daioeN tax l .weighted rowW hW i hi
  have hSm := aggregate_metric_eq df daioeN tax l .simple rowS hS i hi
  rw [hkW, hk] at hWm
  rw [hkS, hk] at hSm
  refine ⟨?_, ?_, ?_⟩
  · rw [hSm]
    exact simpleValue_singleton r i
  · rintro ⟨e, he, hne⟩
    rw [hWm]
    exact weightedValue_singleton_good r i e he hne
  · intro he
    rw [hWm]
    exact weightedValue_singleton_bad r i he

/-- C8 counterexample: one leaf with metric 0.5 but absent employment
yields an absent weighted aggregate, not a value identical to the leaf's
0.5. -/
theorem C8_counterexample :
    (aggregate_level exC8 1 "t" 3 .weighted).map (fun r => r.metric 0) = [none] ∧
      exC8.map (fun r => r.metric 0) = [some (1/2)] ∧
      (none : Option ℚ) ≠ some (1/2) := by
  refine ⟨by decide, by decide, by decide⟩

/-- C8 witness: the amended theorem applied to a single leaf with a
present nonzero employment, where both aggregates equal the leaf's 0.75. -/
theorem C8_witness :
    leavesOf exC8good 3 (2020, "111", "L") = [exC8leaf] ∧
      exC8RowW ∈ aggregate_level exC8good 1 "t" 3 .weighted ∧
      exC8RowS ∈ aggregate_level exC8good 1 "t" 3 .simple ∧
      (exC8RowS.metric 0 = exC8leaf.metric 0 ∧
        ((∃ e : ℚ, exC8leaf.emp = some e ∧ e ≠ 0) →
          exC8RowW.metric 0 = exC8leaf.metric 0) ∧
        ((exC8leaf.emp = none ∨ exC8leaf.emp = some 0) → exC8RowW.metric 0 = none)) :=
  ⟨by decide, by decide, by decide,
    C8_single_leaf exC8good 1 "t" 3 (2020, "111", "L") exC8leaf (by decide) exC8RowW exC8RowS
      (by decide) (by decide) (by decide) (by decide) 0 (by decide)⟩

theorem run_weighting_prepare_error (raw : RawFrame) (scb : List ScbRow) (tax : String)
    (e : PipeErr) (hp : prepare_raw_dataframe raw tax = .error e) :
    run_weighting raw scb tax = ([], .error e) := by
  unfold run_weighting
  simp only [hp]

theorem run_weighting_attach_error (raw : RawFrame) (scb : List ScbRow) (tax : String)
    (pd : List LeafRow × List String) (e : PipeErr)
    (hp : prepare_raw_dataframe raw tax = .ok pd)
    (ha : attach_employment pd.1 scb = .error e) :
    run_weighting raw scb tax = ([], .error e) := by
  unfold run_weighting
  simp only [hp, ha]

theorem run_weighting_ok (raw : RawFrame) (scb : List ScbRow) (tax : String)
    (pd : List LeafRow × List String) (df : List LeafRow)
    (hp : prepare_raw_dataframe raw tax = .ok pd)
    (ha : attach_employment pd.1 scb = .ok df) :
    run_weighting raw scb tax =
      ((write_outputs tax (build_pipeline df pd.2.length tax .weighted)
          (build_pipeline df pd.2.length tax .simple)).1,
        .ok (write_outputs tax (build_pipeline df pd.2.length tax .weighted)
          (build_pipeline df pd.2.length tax .simple)).2) := by
  unfold run_weighting
  simp only [hp, ha]

/-- C9, confirmed: a run whose result is a raised error has an empty write
list (nothing written for the taxonomy), while a successful run writes
exactly the two output tables. -/
theorem C9_no_partial_writes (raw : RawFrame) (scb : List ScbRow) (tax : String) :
    ((∃ e, (run_weighting raw scb tax).2 = .error e) → (run_weighting raw scb tax).1 = []) ∧
    (∀ p, (run_weighting raw scb tax).2 = .ok p →
      ∃ w s, (run_weighting raw scb tax).1 = [(p.1, w), (p.2, s)]) := by
  rcases hpre : prepare_raw_dataframe raw tax with e | pd
  · rw [run_weighting_prepare_error raw scb tax e hpre]
    exact ⟨fun _ => rfl, fun p hp => Except.noConfusion hp⟩
  · rcases hatt : attach_employment pd.1 scb with e | df
    · rw [run_weighting_attach_error raw scb tax pd e hpre hatt]
      exact ⟨fun _ => rfl, fun p hp => Except.noConfusion hp⟩
    · rw [run_weighting_ok raw scb tax pd df hpre hatt]
      refine ⟨?_, ?_⟩
      · rintro ⟨e, he⟩
        exact Except.noConfusion he
      · intro p hp
        have hp' : p = (write_outputs tax
            (build_pipeline df pd.2.length tax .weighted)
            (build_pipeline df pd.2.length tax .simple)).2 := (Except.ok.inj hp).symm
        subst hp'
        exact ⟨_, _, rfl⟩

/-- C9 witness: a run against an employment table with no level-4 rows
fails with the validation error and writes nothing. -/
theorem C9_witness :
    (run_weighting exC9raw [] "t").2 =
        .error (.valueErr "SCB data must contain level-4 rows for weighting.") ∧
      (run_weighting exC9raw [] "t").1 = [] :=
  ⟨by decide, (C9_no_partial_writes exC9raw [] "t").1
    ⟨.valueErr "SCB data must contain level-4 rows for weighting.", by decide⟩⟩

theorem map_insertSorted {α κ : Type} (f : α → κ) (le : κ → κ → Bool) (a : α) (l : List α) :
    (insertSorted (fun x y => le (f x) (f y)) a l).map f = insertSorted le (f a) (l.map f) := by
  induction l with
  | nil => rfl
  | cons b bs ih =>
    rcases Bool.eq_false_or_eq_true (le (f a) (f b)) with h | h <;>
      simp [insertSorted, h, ih]

theorem map_sortByBool {α κ : Type} (f : α → κ) (le : κ → κ → Bool) (l : List α) :
    (sortByBool (fun x y => le (f x) (f y)) l).map f = sortByBool le (l.map f) := by
  induction l with
  | nil => rfl
  | cons a as ih =>
    simp only [sortByBool, List.map_cons]
    rw [map_insertSorted, ih]

theorem aggregate_level_keyProj (df : List LeafRow) (daioeN : Nat) (tax : String) (l : Nat)
    (m1 m2 : Method) :
    (aggregate_level df daioeN tax l m1).map keyProj =
      (aggregate_level df daioeN tax l m2).map keyProj := by
  unfold aggregate_level
  rw [List.map_map, List.map_map]
  rfl

theorem add_percentiles_keyProj (t : List OutRow) (n : Nat) :
    (add_percentiles t n).map keyProj = t.map keyProj := by
  unfold add_percentiles
  rw [List.map_map]
  rfl

/-- C10, confirmed: for any prepared input the weighted and the simple
output tables agree row by row on the key columns (taxonomy, level, code,
label, year, n_children); they differ only in the metric and
percentile-rank columns. -/
theorem C10_row_alignment (df : List LeafRow) (daioeN : Nat) (tax : String) :
    (build_pipeline df daioeN tax .weighted).map keyProj =
      (build_pipeline df daioeN tax .simple).map keyProj := by
  unfold build_pipeline
  rw [show (fun a b : OutRow => tripleLe (sortTriple a) (sortTriple b)) =
      (fun a b : OutRow => leKey6 (keyProj a) (keyProj b)) from rfl]
  rw [map_sortByBool keyProj leKey6, map_sortByBool keyProj leKey6]
  rw [add_percentiles_keyProj, add_percentiles_keyProj]
  unfold combinedTable
  rw [List.map_append, List.map_append, List.map_append,
    List.map_append, List.map_append, List.map_append]
  rw [aggregate_level_keyProj df daioeN tax 1 .weighted .simple,
    aggregate_level_keyProj df daioeN tax 2 .weighted .simple,
    aggregate_level_keyProj df daioeN tax 3 .weighted .simple]

/-- C10 witness: the alignment applied to the concrete two-leaf table. -/
theorem C10_witness :
    (build_pipeline exC1 1 "t" .weighted).map keyProj =
      (build_pipeline exC1 1 "t" .simple).map keyProj :=
  C10_row_alignment exC1 1 "t"

end Daioe
